import Mathlib

/-
  Verification development for the TeamsFx core orchestration pipeline
  (packages/fx-core/src/core/FxCore.ts).

  The `FxCore` class dispatches every public operation to one of two
  API-generation implementations (V2 / V3) selected by the process-wide
  `isV3()` flag, and each implementation declares its middleware pipeline
  with a `@hooks([...])` decorator.  The tables below are transcribed
  literally from the decorator lists in FxCore.ts.

  Middleware implementations (errorHandler.ts, concurrentLocker.ts,
  projectSettingsWriter.ts, envInfoWriter.ts, ...) are not part of the
  sources under verification; where their behaviour is needed it is
  modelled from the specification and marked as such.
-/

namespace TeamsFx

/-- Structured error values of the core (core/error.ts constructors used by
FxCore.ts, carrying only the data the claims need). -/
inductive FxErr where
  | objectIsUndefined (name : String)
  | invalidInput (msg : String)
  | projectFolderExist (path : String)
  | projectFolderInvalid (path : String)
  | loadSolution
  | writeFile
  | copyFile
  | taskNotSupport (task : String)
  | concurrentOperation
  | operationNotSupportedForExistingApp (task : String)
  | functionRouter
  | userCancel
  | nonExistEnvName (env : String)
  | systemError (inner : FxErr)
  | delegated (code : Nat)
  deriving DecidableEq, Repr

/-- The two plugin-API generations. -/
inductive Gen where
  | v2
  | v3
  deriving DecidableEq, Repr

/-- Middleware names appearing in the `@hooks([...])` decorator lists of
FxCore.ts.  `EnvInfoLoaderMW` and `EnvInfoWriterMW` are middleware
factories taking a boolean argument at the call site (`EnvInfoWriterMW()`
uses the default argument, transcribed as `false`). -/
inductive MW where
  | ErrorHandlerMW
  | ConcurrentLockerMW
  | ProjectMigratorMW
  | ProjectSettingsLoaderMW
  | EnvInfoLoaderMW (skip : Bool)
  | EnvInfoLoaderMW_V3 (skip : Bool)
  | SolutionLoaderMW
  | SolutionLoaderMW_V3
  | QuestionModelMW
  | ContextInjectorMW
  | ProjectSettingsWriterMW
  | EnvInfoWriterMW (skip : Bool)
  | EnvInfoWriterMW_V3
  | LocalSettingsLoaderMW
  | LocalSettingsWriterMW
  deriving DecidableEq, Repr

/-- The version-specific implementation methods of `FxCore` (plus
`buildArtifacts`, which has no `@hooks` decorator at all). -/
inductive Impl where
  | createProjectV2
  | createProjectV3
  | provisionResourcesV2
  | provisionResourcesV3
  | deployArtifactsV2
  | deployArtifactsV3
  | localDebugV2
  | publishApplicationV2
  | publishApplicationV3
  | executeUserTaskV2
  | executeUserTaskV3
  | grantPermissionV2
  | grantPermissionV3
  | checkPermissionV2
  | checkPermissionV3
  | listCollaboratorV2
  | listCollaboratorV3
  | buildArtifacts
  deriving DecidableEq, Repr

/-- Public operations of `FxCore` that dispatch on the `isV3()` flag
(plus `buildArtifacts`). -/
inductive Op where
  | createProject
  | provisionResources
  | deployArtifacts
  | publishApplication
  | executeUserTask
  | grantPermission
  | checkPermission
  | listCollaborator
  | localDebug
  | buildArtifacts
  deriving DecidableEq, Repr

/-- The declared `@hooks([...])` list of each implementation, transcribed
from FxCore.ts.  `cu` is the value of `isConfigUnifyEnabled()`, which only
affects the boolean arguments in `localDebugV2`'s list. -/
def hooksOf (cu : Bool) : Impl → List MW
  | .createProjectV2 =>
      [.ErrorHandlerMW, .QuestionModelMW, .ContextInjectorMW,
       .ProjectSettingsWriterMW, .EnvInfoWriterMW true]
  | .createProjectV3 =>
      [.ErrorHandlerMW, .QuestionModelMW, .ContextInjectorMW]
  | .provisionResourcesV2 =>
      [.ErrorHandlerMW, .ConcurrentLockerMW, .ProjectMigratorMW,
       .ProjectSettingsLoaderMW, .EnvInfoLoaderMW false, .SolutionLoaderMW,
       .QuestionModelMW, .ContextInjectorMW, .ProjectSettingsWriterMW,
       .EnvInfoWriterMW false]
  | .provisionResourcesV3 =>
      [.ErrorHandlerMW, .ConcurrentLockerMW, .ProjectMigratorMW,
       .ProjectSettingsLoaderMW, .EnvInfoLoaderMW_V3 false, .SolutionLoaderMW_V3,
       .QuestionModelMW, .ContextInjectorMW, .ProjectSettingsWriterMW,
       .EnvInfoWriterMW_V3]
  | .deployArtifactsV2 =>
      [.ErrorHandlerMW, .ConcurrentLockerMW, .ProjectMigratorMW,
       .ProjectSettingsLoaderMW, .EnvInfoLoaderMW false, .SolutionLoaderMW,
       .QuestionModelMW, .ContextInjectorMW, .ProjectSettingsWriterMW,
       .EnvInfoWriterMW false]
  | .deployArtifactsV3 =>
      [.ErrorHandlerMW, .ConcurrentLockerMW, .ProjectMigratorMW,
       .ProjectSettingsLoaderMW, .EnvInfoLoaderMW_V3 false, .SolutionLoaderMW_V3,
       .QuestionModelMW, .ContextInjectorMW, .ProjectSettingsWriterMW,
       .EnvInfoWriterMW_V3]
  | .localDebugV2 =>
      [.ErrorHandlerMW, .ConcurrentLockerMW, .ProjectMigratorMW,
       .ProjectSettingsLoaderMW, .EnvInfoLoaderMW (!cu), .LocalSettingsLoaderMW,
       .SolutionLoaderMW, .QuestionModelMW, .ContextInjectorMW,
       .ProjectSettingsWriterMW, .EnvInfoWriterMW (!cu), .LocalSettingsWriterMW]
  | .publishApplicationV2 =>
      [.ErrorHandlerMW, .ConcurrentLockerMW, .ProjectMigratorMW,
       .ProjectSettingsLoaderMW, .EnvInfoLoaderMW false, .SolutionLoaderMW,
       .QuestionModelMW, .ContextInjectorMW, .ProjectSettingsWriterMW,
       .EnvInfoWriterMW false]
  | .publishApplicationV3 =>
      [.ErrorHandlerMW, .ConcurrentLockerMW, .ProjectMigratorMW,
       .ProjectSettingsLoaderMW, .EnvInfoLoaderMW false, .SolutionLoaderMW,
       .QuestionModelMW, .ContextInjectorMW, .ProjectSettingsWriterMW,
       .EnvInfoWriterMW false]
  | .executeUserTaskV2 =>
      [.ErrorHandlerMW, .ConcurrentLockerMW, .ProjectMigratorMW,
       .ProjectSettingsLoaderMW, .EnvInfoLoaderMW false, .LocalSettingsLoaderMW,
       .SolutionLoaderMW, .QuestionModelMW, .ContextInjectorMW,
       .ProjectSettingsWriterMW, .EnvInfoWriterMW false]
  | .executeUserTaskV3 =>
      [.ErrorHandlerMW, .ConcurrentLockerMW, .ProjectMigratorMW,
       .ProjectSettingsLoaderMW, .EnvInfoLoaderMW_V3 false, .LocalSettingsLoaderMW,
       .SolutionLoaderMW_V3, .QuestionModelMW, .ContextInjectorMW,
       .ProjectSettingsWriterMW, .EnvInfoWriterMW false]
  | .grantPermissionV2 =>
      [.ErrorHandlerMW, .ConcurrentLockerMW, .ProjectMigratorMW,
       .ProjectSettingsLoaderMW, .EnvInfoLoaderMW false, .SolutionLoaderMW,
       .QuestionModelMW, .ContextInjectorMW]
  | .grantPermissionV3 =>
      [.ErrorHandlerMW, .ConcurrentLockerMW, .ProjectMigratorMW,
       .ProjectSettingsLoaderMW, .EnvInfoLoaderMW_V3 false,
       .QuestionModelMW, .ContextInjectorMW]
  | .checkPermissionV2 =>
      [.ErrorHandlerMW, .ConcurrentLockerMW, .ProjectMigratorMW,
       .ProjectSettingsLoaderMW, .EnvInfoLoaderMW false, .SolutionLoaderMW,
       .QuestionModelMW, .ContextInjectorMW]
  | .checkPermissionV3 =>
      [.ErrorHandlerMW, .ConcurrentLockerMW, .ProjectMigratorMW,
       .ProjectSettingsLoaderMW, .EnvInfoLoaderMW_V3 false, .ContextInjectorMW]
  | .listCollaboratorV2 =>
      [.ErrorHandlerMW, .ConcurrentLockerMW, .ProjectMigratorMW,
       .ProjectSettingsLoaderMW, .EnvInfoLoaderMW false, .SolutionLoaderMW,
       .QuestionModelMW, .ContextInjectorMW]
  | .listCollaboratorV3 =>
      [.ErrorHandlerMW, .ConcurrentLockerMW, .ProjectMigratorMW,
       .ProjectSettingsLoaderMW, .EnvInfoLoaderMW_V3 false, .ContextInjectorMW]
  | .buildArtifacts => []

/-- The thin dispatcher: each public operation consults the process-wide
`isV3()` flag and delegates to the matching implementation (FxCore.ts,
e.g. `provisionResources` lines 426-432).  `localDebug` under V3 delegates
to `provisionResourcesV3` after forcing the local environment. -/
def dispatch : Op → Bool → Impl
  | .createProject, b => if b then .createProjectV3 else .createProjectV2
  | .provisionResources, b => if b then .provisionResourcesV3 else .provisionResourcesV2
  | .deployArtifacts, b => if b then .deployArtifactsV3 else .deployArtifactsV2
  | .publishApplication, b => if b then .publishApplicationV3 else .publishApplicationV2
  | .executeUserTask, b => if b then .executeUserTaskV3 else .executeUserTaskV2
  | .grantPermission, b => if b then .grantPermissionV3 else .grantPermissionV2
  | .checkPermission, b => if b then .checkPermissionV3 else .checkPermissionV2
  | .listCollaborator, b => if b then .listCollaboratorV3 else .listCollaboratorV2
  | .localDebug, b => if b then .provisionResourcesV3 else .localDebugV2
  | .buildArtifacts, _ => .buildArtifacts

/-- Generation of a versioned middleware: the loader and writer middlewares
come in a V2 flavour and a `_V3` flavour; the rest are unversioned. -/
def mwGen : MW → Option Gen
  | .EnvInfoLoaderMW _ => some .v2
  | .EnvInfoLoaderMW_V3 _ => some .v3
  | .SolutionLoaderMW => some .v2
  | .SolutionLoaderMW_V3 => some .v3
  | .EnvInfoWriterMW _ => some .v2
  | .EnvInfoWriterMW_V3 => some .v3
  | _ => none

/-- The generation selected by the `isV3()` flag. -/
def genOfFlag (b : Bool) : Gen := if b then .v3 else .v2

/-- A middleware is compatible with generation `g` when it is unversioned
or versioned as `g`. -/
def mwMatchesGen (g : Gen) (m : MW) : Bool :=
  match mwGen m with
  | none => true
  | some g2 => g2 == g

/-- A pipeline is generation-uniform for `g` when every declared middleware
is compatible with `g`. -/
def pipelineUniform (cu : Bool) (i : Impl) (g : Gen) : Bool :=
  (hooksOf cu i).all (mwMatchesGen g)

/-- Generations of the solution-loader middlewares declared by a pipeline:
`SolutionLoaderMW` places a V2 solution instance in the hook context,
`SolutionLoaderMW_V3` a V3 one. -/
def solutionLoaderGens (cu : Bool) (i : Impl) : List Gen :=
  (hooksOf cu i).filterMap fun m =>
    match m with
    | .SolutionLoaderMW => some .v2
    | .SolutionLoaderMW_V3 => some .v3
    | _ => none

/-- A pipeline never mixes solution instances when it does not load both a
V2 and a V3 solution instance. -/
def noSolutionMixing (cu : Bool) (i : Impl) : Bool :=
  !((solutionLoaderGens cu i).contains .v2 && (solutionLoaderGens cu i).contains .v3)

/-- The claim of C1, per operation and flag value: the selected pipeline
uses only middleware of the selected generation and loads no solution
instance of the other generation. -/
def c1ClaimAt (cu : Bool) (op : Op) (b : Bool) : Bool :=
  pipelineUniform cu (dispatch op b) (genOfFlag b) &&
  noSolutionMixing cu (dispatch op b)

/-- The eight operations named by claim C1. -/
def c1Ops : List Op :=
  [.createProject, .provisionResources, .deployArtifacts, .publishApplication,
   .executeUserTask, .grantPermission, .checkPermission, .listCollaborator]

/-- Middleware roles as the specification names them. -/
inductive Role where
  | errorHandler
  | concurrencyLock
  | projectMigrator
  | projectSettingsLoader
  | environmentLoader
  | solutionResolver
  | questionEngine
  | contextInjector
  | projectSettingsWriter
  | environmentWriter
  | localSettingsLoader
  | localSettingsWriter
  deriving DecidableEq, Repr

/-- Role of each middleware (both generations of a loader/writer fill the
same role in the pipeline). -/
def roleOf : MW → Role
  | .ErrorHandlerMW => .errorHandler
  | .ConcurrentLockerMW => .concurrencyLock
  | .ProjectMigratorMW => .projectMigrator
  | .ProjectSettingsLoaderMW => .projectSettingsLoader
  | .EnvInfoLoaderMW _ => .environmentLoader
  | .EnvInfoLoaderMW_V3 _ => .environmentLoader
  | .SolutionLoaderMW => .solutionResolver
  | .SolutionLoaderMW_V3 => .solutionResolver
  | .QuestionModelMW => .questionEngine
  | .ContextInjectorMW => .contextInjector
  | .ProjectSettingsWriterMW => .projectSettingsWriter
  | .EnvInfoWriterMW _ => .environmentWriter
  | .EnvInfoWriterMW_V3 => .environmentWriter
  | .LocalSettingsLoaderMW => .localSettingsLoader
  | .LocalSettingsWriterMW => .localSettingsWriter

/-- The middleware ordering claimed for a mutating operation; the target
operation runs between `contextInjector` and the two writers (the writers
are declared after `ContextInjectorMW`, and their persisting work happens
in their after phase, i.e. after the target operation returns). -/
def specMutatingPipeline : List Role :=
  [.errorHandler, .concurrencyLock, .projectMigrator, .projectSettingsLoader,
   .environmentLoader, .solutionResolver, .questionEngine, .contextInjector,
   .projectSettingsWriter, .environmentWriter]

/-- Outcome of the promise returned by a public operation: resolved with a
tagged success/failure value, or rejected with an escaped fault. -/
inductive PromiseOutcome where
  | resolved (r : Except FxErr Unit)
  | rejected (e : FxErr)
  deriving Repr

/-- Whether a promise outcome is a resolution (structured result). -/
def isResolved : PromiseOutcome → Bool
  | .resolved _ => true
  | .rejected _ => false

/-- Modelled from the spec: fault propagation through a declared middleware
chain (middleware/errorHandler.ts is not under src/).  The argument
outcome is the combined behaviour of everything inside the middleware —
inner middleware and the target operation; a thrown exception or rejected
asynchronous operation appears as `rejected`.  `ErrorHandlerMW` converts
any rejection of its inner chain into a structured system-error result;
every other middleware passes the inner outcome through. -/
def runFaulty : List MW → PromiseOutcome → PromiseOutcome
  | [], b => b
  | .ErrorHandlerMW :: rest, b =>
      match runFaulty rest b with
      | .rejected e => .resolved (.error (.systemError e))
      | o => o
  | _ :: rest, b => runFaulty rest b

/-- Persistence events emitted by the writer middlewares. -/
inductive WriteEvent where
  | projectSettingsWrite (v : Option Nat)
  | envInfoWrite (v : Option Nat)
  | localSettingsWrite (v : Option Nat)
  deriving DecidableEq, Repr

/-- The in-memory hook context threaded through one pipeline run, with the
documents abstracted to their contents (a `Nat` stands for a document
value). -/
structure PipeCtx where
  projectSettings : Option Nat := none
  envInfo : Option Nat := none
  solutionLoaded : Bool := false
  injected : Bool := false
  localSettings : Option Nat := none
  deriving DecidableEq, Repr

/-- Full pipeline state: the hook context, the advisory lock, and the log
of persistence events. -/
structure PipeState where
  ctx : PipeCtx := {}
  locked : Bool := false
  writes : List WriteEvent := []
  deriving DecidableEq, Repr

/-- The on-disk documents the loader middlewares read. -/
structure Disk where
  settings : Nat
  envInfo : Nat
  localSettings : Nat
  deriving DecidableEq, Repr

/-- A middleware as a before phase (which may short-circuit with a failure
result) and an after phase. -/
structure MWSem where
  before : PipeState → Except FxErr PipeState
  after : PipeState → PipeState

/-- Modelled from the spec: the effect of each middleware on the pipeline
state (the middleware implementation files are not under src/).  Loaders
populate the hook context in their before phase; `ConcurrentLockerMW`
acquires the advisory lock before and releases it after; the writer
middlewares persist the corresponding context field in their after phase,
unconditionally; `ErrorHandlerMW`'s fault conversion is modelled by
`runFaulty` above and is the identity on value-level results. -/
def mwSem (d : Disk) : MW → MWSem
  | .ErrorHandlerMW => ⟨.ok, id⟩
  | .ConcurrentLockerMW =>
      ⟨fun s => if s.locked then .error .concurrentOperation
                else .ok { s with locked := true },
       fun s => { s with locked := false }⟩
  | .ProjectMigratorMW => ⟨.ok, id⟩
  | .ProjectSettingsLoaderMW =>
      ⟨fun s => .ok { s with ctx := { s.ctx with projectSettings := some d.settings } }, id⟩
  | .EnvInfoLoaderMW _ =>
      ⟨fun s => .ok { s with ctx := { s.ctx with envInfo := some d.envInfo } }, id⟩
  | .EnvInfoLoaderMW_V3 _ =>
      ⟨fun s => .ok { s with ctx := { s.ctx with envInfo := some d.envInfo } }, id⟩
  | .SolutionLoaderMW =>
      ⟨fun s => .ok { s with ctx := { s.ctx with solutionLoaded := true } }, id⟩
  | .SolutionLoaderMW_V3 =>
      ⟨fun s => .ok { s with ctx := { s.ctx with solutionLoaded := true } }, id⟩
  | .QuestionModelMW => ⟨.ok, id⟩
  | .ContextInjectorMW =>
      ⟨fun s => .ok { s with ctx := { s.ctx with injected := true } }, id⟩
  | .ProjectSettingsWriterMW =>
      ⟨.ok, fun s => { s with writes := s.writes ++ [.projectSettingsWrite s.ctx.projectSettings] }⟩
  | .EnvInfoWriterMW _ =>
      ⟨.ok, fun s => { s with writes := s.writes ++ [.envInfoWrite s.ctx.envInfo] }⟩
  | .EnvInfoWriterMW_V3 =>
      ⟨.ok, fun s => { s with writes := s.writes ++ [.envInfoWrite s.ctx.envInfo] }⟩
  | .LocalSettingsLoaderMW =>
      ⟨fun s => .ok { s with ctx := { s.ctx with localSettings := some d.localSettings } }, id⟩
  | .LocalSettingsWriterMW =>
      ⟨.ok, fun s => { s with writes := s.writes ++ [.localSettingsWrite s.ctx.localSettings] }⟩

/-- Modelled from the spec: execution of a declared middleware list around
a target operation.  Before phases run in list order; a failing before
phase short-circuits the rest of the chain; the after phases of every
middleware whose before phase completed still run, in reverse-entry
order. -/
def runPipe (d : Disk) : List MW → (PipeState → Except FxErr Unit × PipeState) →
    PipeState → Except FxErr Unit × PipeState
  | [], tgt, s => tgt s
  | m :: rest, tgt, s =>
      match (mwSem d m).before s with
      | .error e => (.error e, s)
      | .ok s1 =>
          let inner := runPipe d rest tgt s1
          (inner.1, (mwSem d m).after inner.2)

/-- The hook context after all before phases of a provision/deploy/publish
pipeline have run: settings and environment loaded, solution resolved,
shared context injected. -/
def loadedCtxV2 (d : Disk) : PipeCtx :=
  { projectSettings := some d.settings, envInfo := some d.envInfo,
    solutionLoaded := true, injected := true, localSettings := none }

/-- The hook context after all before phases of the `localDebugV2`
pipeline, which additionally loads local settings. -/
def loadedCtxLocalDebug (d : Disk) : PipeCtx :=
  { projectSettings := some d.settings, envInfo := some d.envInfo,
    solutionLoaded := true, injected := true,
    localSettings := some d.localSettings }

/-- Modelled from the spec: the state of the per-project-path advisory
lock behind `ConcurrentLockerMW` (middleware/concurrentLocker.ts is not
under src/): the set of project paths whose lock is currently held. -/
structure LockState where
  held : List String
  deriving DecidableEq, Repr

/-- Modelled from the spec: `acquire(projectPath)` returns the new lock
state or fails fast with a "locked" error if another handle for the same
path is outstanding. -/
def acquireLock (s : LockState) (p : String) : Except FxErr LockState :=
  if p ∈ s.held then .error .concurrentOperation else .ok ⟨p :: s.held⟩

/-- Modelled from the spec: `release(handle)` frees the path (idempotent). -/
def releaseLock (s : LockState) (p : String) : LockState :=
  ⟨s.held.filter (fun q => q != p)⟩

/-- Solution settings inside a project-settings document. -/
structure SolutionSettings where
  name : String
  version : String
  deriving DecidableEq, Repr

/-- A project-settings document (the `ProjectSettings` shape constructed
by `createProjectV2` in FxCore.ts lines 207-212 and mutated afterwards). -/
structure ProjectSettings where
  appName : String
  projectId : String
  version : String
  isFromSample : Bool
  solutionSettings : Option SolutionSettings := none
  programmingLanguage : Option String := none
  deriving DecidableEq, Repr

/-- Modelled from the FxCore.ts comment "there is no solution settings if
created from existing app" (the helper `isPureExistingApp` in
common/projectSettingsHelper.ts is not under src/): a project is a pure
existing app when its settings carry no solution settings. -/
def isPureExistingApp (ps : ProjectSettings) : Bool :=
  ps.solutionSettings.isNone

/-- A V3 solution instance as the operation bodies observe it: which of
its optional lifecycle methods are present. -/
structure SolV3 where
  hasProvision : Bool := false
  hasDeploy : Bool := false
  hasPublish : Bool := false
  deriving DecidableEq, Repr

/-- The optional fields of the `CoreHookContext` consulted by the
operation bodies (`Unit` stands for a present collaborator object whose
content the guard does not inspect). -/
structure HookCtx where
  projectSettings : Option ProjectSettings := none
  solutionV2 : Option Unit := none
  solutionV3 : Option SolV3 := none
  contextV2 : Option Unit := none
  envInfoV2 : Option Unit := none
  envInfoV3 : Option Unit := none
  deriving DecidableEq, Repr

/-- Modelled from the spec: `undefinedName(objects, names)` (common/tools.ts
is not under src/) returns the name paired with the first absent object. -/
def undefinedName (objects : List (Bool × String)) : String :=
  match objects.find? (fun x => !x.1) with
  | some x => x.2
  | none => ""

/-- Body of `provisionResourcesV2` (FxCore.ts lines 446-463): if the hook
context or any of `solutionV2`, `contextV2`, `envInfoV2` is absent, return
the `ObjectIsUndefinedError` consistency error; otherwise return the
delegated solution result `call`. -/
def provisionResourcesV2Body (c : Option HookCtx) (call : Except FxErr Unit) :
    Except FxErr Unit :=
  match c with
  | none => .error (.objectIsUndefined "Provision input stuff")
  | some c =>
      if c.solutionV2.isNone || c.contextV2.isNone || c.envInfoV2.isNone then
        .error (.objectIsUndefined "Provision input stuff")
      else call

/-- Body of `provisionResourcesV3` (FxCore.ts lines 477-499): the solution
is invoked only when the context, `solutionV3` (with its optional
`provisionResources` method), `contextV2` and `envInfoV3` are all present;
otherwise the body returns `ok(Void)`. -/
def provisionResourcesV3Body (c : Option HookCtx) (call : Except FxErr Unit) :
    Except FxErr Unit :=
  match c with
  | some c =>
      match c.solutionV3 with
      | some s =>
          if c.contextV2.isSome && c.envInfoV3.isSome && s.hasProvision then call
          else .ok ()
      | none => .ok ()
  | none => .ok ()

/-- Body of `deployArtifactsV2` (FxCore.ts lines 548-574): missing project
settings or missing `solutionV2`/`contextV2`/`envInfoV2` yield
`ObjectIsUndefinedError` (naming the first missing field via
`undefinedName`); a pure existing app yields
`OperationNotSupportedForExistingAppError`; a solution without the
optional `deploy` method yields `ok(Void)`. -/
def deployArtifactsV2Body (c : Option HookCtx) (hasDeploy : Bool)
    (call : Except FxErr Unit) : Except FxErr Unit :=
  match c with
  | none => .error (.objectIsUndefined "deploy input stuff")
  | some c =>
      match c.projectSettings with
      | none => .error (.objectIsUndefined "deploy input stuff")
      | some ps =>
          if isPureExistingApp ps then
            .error (.operationNotSupportedForExistingApp "deploy")
          else if c.solutionV2.isNone || c.contextV2.isNone || c.envInfoV2.isNone then
            .error (.objectIsUndefined ("Deploy input stuff: " ++
              undefinedName [(true, "ctx"), (c.solutionV2.isSome, "ctx.solutionV2"),
                             (c.contextV2.isSome, "ctx.contextV2"),
                             (c.envInfoV2.isSome, "ctx.envInfoV2")]))
          else if hasDeploy then call
          else .ok ()

/-- Body of `deployArtifactsV3` (FxCore.ts lines 588-601): the solution is
invoked only when all expected fields (and the optional `deploy` method)
are present; otherwise the body returns `ok(Void)`. -/
def deployArtifactsV3Body (c : Option HookCtx) (call : Except FxErr Unit) :
    Except FxErr Unit :=
  match c with
  | some c =>
      match c.solutionV3 with
      | some s =>
          if c.contextV2.isSome && c.envInfoV3.isSome && s.hasDeploy then call
          else .ok ()
      | none => .ok ()
  | none => .ok ()

/-- Body of `publishApplicationV2` (FxCore.ts lines 687-706): a missing
context field yields `ObjectIsUndefinedError` naming the first missing
field; otherwise the delegated result is returned. -/
def publishApplicationV2Body (c : Option HookCtx) (call : Except FxErr Unit) :
    Except FxErr Unit :=
  match c with
  | none => .error (.objectIsUndefined "publish input stuff: ctx")
  | some c =>
      if c.solutionV2.isNone || c.contextV2.isNone || c.envInfoV2.isNone then
        .error (.objectIsUndefined ("publish input stuff: " ++
          undefinedName [(true, "ctx"), (c.solutionV2.isSome, "ctx.solutionV2"),
                         (c.contextV2.isSome, "ctx.contextV2"),
                         (c.envInfoV2.isSome, "ctx.envInfoV2")]))
      else call

/-- Body of `publishApplicationV3` (FxCore.ts lines 719-741): the solution
is invoked only when all expected fields (and the optional
`publishApplication` method) are present; otherwise `ok(Void)`. -/
def publishApplicationV3Body (c : Option HookCtx) (call : Except FxErr Unit) :
    Except FxErr Unit :=
  match c with
  | some c =>
      match c.solutionV3 with
      | some s =>
          if c.contextV2.isSome && c.envInfoV3.isSome && s.hasPublish then call
          else .ok ()
      | none => .ok ()
  | none => .ok ()

/-- A concrete project-settings document with solution settings, used by
the C9 witness. -/
def c9WitnessSettings : ProjectSettings :=
  { appName := "a", projectId := "i", version := "1", isFromSample := false,
    solutionSettings := some { name := "fx", version := "1.0.0" } }

/-- A concrete hook context carrying project settings but no resolved
solution instance, used by the C9 witness. -/
def c9WitnessCtx : HookCtx :=
  { projectSettings := some c9WitnessSettings }

/-- The three-way outcome of `solutionV2.provisionLocalResource` as
`localDebugV2` matches on it (`res.kind` is "success", "partialSuccess" —
here `partSuccess` — or "failure"); the partial outcome carries both an
output and an error. -/
inductive LocalProvisionResult where
  | success (output : Nat)
  | partSuccess (output : Nat) (error : FxErr)
  | failure (error : FxErr)
  deriving Repr

/-- Handling of the local-resource provisioning outcome in `localDebugV2`
(FxCore.ts lines 646-654): on success the output is stored in
`ctx.localSettings` and `ok(Void)` is returned; on partial success the
partial output is stored in `ctx.localSettings` and the carried error is
returned; on failure the error is returned and `ctx.localSettings` keeps
its prior value.  The first component is the returned result, the second
the `ctx.localSettings` field afterwards (`prior` is its value before the
call, already defaulted to `{}` by line 634). -/
def localDebugHandleResult (prior : Nat) (res : LocalProvisionResult) :
    Except FxErr Unit × Option Nat :=
  match res with
  | .success o => (.ok (), some o)
  | .partSuccess o e => (.error e, some o)
  | .failure e => (.error e, some prior)

/-- Modelled from the spec: the per-environment file layout keyed by
environment name (`getEnvConfigPath`/state paths live in
core/environment.ts, which is not under src/).  Each environment owns one
config file and one state file. -/
inductive EnvFile where
  | config (envName : String)
  | state (envName : String)
  deriving DecidableEq, Repr

/-- A project's environment files on disk: contents by file, `none` when
the file does not exist. -/
def EnvFs : Type := EnvFile → Option String

/-- Writing one file: a pointwise update of the filesystem. -/
def writeEnvFile (fs : EnvFs) (f : EnvFile) (bytes : String) : EnvFs :=
  fun g => if g = f then some bytes else fs g

/-- Embeds `createEnvCopy` (FxCore.ts lines 1261-1288): compute the source and
target env-config paths and copy the single source config file to the
target config path with `fs.copy`; a copy fault is caught and returned as
`CopyFileError`.  No other file is touched. -/
def createEnvCopy (fs : EnvFs) (targetEnvName sourceEnvName : String) :
    Except FxErr EnvFs :=
  match fs (.config sourceEnvName) with
  | none => .error .copyFile
  | some bytes => .ok (writeEnvFile fs (.config targetEnvName) bytes)

/-- A concrete environment filesystem for the C8 witness: only the "dev"
config file exists. -/
def c8WitnessFs : EnvFs :=
  fun f => if f = .config "dev" then some "cfg-bytes" else none

/-- Platforms distinguished by `createProject` (`Platform.VSCode`,
`Platform.VS`, and the CLI default). -/
inductive Platform where
  | vsCode
  | vs
  | cli
  deriving DecidableEq, Repr

/-- A V2 solution plugin as `createProjectV2` uses it: its name and the
results of the collaborator calls the body makes. -/
structure SolutionV2 where
  name : String
  scaffoldResult : Except FxErr Unit
  generateResourceTemplateResult : Except FxErr Unit
  hasCreateEnv : Bool
  createEnvResult : Except FxErr Unit

/-- The fields of the input bag consulted by `createProjectV2` /
`createProjectV3`.  `createFromScratch = false` corresponds to the
`ScratchOptionNo` answer (create from sample). -/
structure CreateInputs where
  platform : Platform
  folder : Option String
  createFromScratch : Bool
  appName : Option String
  projectId : Option String
  programmingLanguage : Option String
  solution : Option String
  isCreatedFromExistingApp : Bool

/-- The effectful collaborators of `createProject`, reified as data: the
filesystem queries it makes, the validator (jsonschema against
`ProjectNamePattern` — question.ts is not under src/, so the validator is
carried abstractly as the list of validation-error messages per name),
and the results of the delegated calls. -/
structure CreateEnv where
  rootDirectory : String
  ensureRootDirOk : Bool
  validate : String → List String
  pathExists : String → Bool
  packageJsonExists : String → Bool
  gitignoreExists : String → Bool
  basicFolderWriteOk : Bool
  freshUuid : String
  settingsVersion : String
  configUnify : Bool
  writeEnvConfigResult : String → Except FxErr String
  downloadSampleResult : Except FxErr String
  getSolutionByName : String → Option SolutionV2
  appStudioInitOk : Bool
  appStudioAddCapsOk : Bool
  addFeatureResult : Except FxErr Unit

/-- Filesystem effects performed by `createProject`, as symbolic events. -/
inductive FsWrite where
  | ensureRootDir (folder : String)
  | ensureProjectDir (p : String)
  | ensureConfigDir (p : String)
  | ensureTemplatesAppPackageDir (p : String)
  | writePackageJson (p : String) (appName : String)
  | writeGitignore (p : String)
  | envConfigWrite (writtenPath : String) (envName : String) (appName : String)
  | settingsFileWrite (p : String) (s : ProjectSettings)
  | globalStateWrite
  deriving DecidableEq, Repr

/-- Whether a filesystem event touches the target project path:
`fs.ensureDir(getRootDirectory())` touches only the parent root folder and
`globalStateUpdate` touches per-user global state; every other event is a
write under the project path. -/
def FsWrite.underProject : FsWrite → Bool
  | .ensureRootDir _ => false
  | .globalStateWrite => false
  | _ => true

/-- Observable outcome of one `createProject` run: the returned result,
the `ctx.projectSettings` document left in the hook context (which the
`ProjectSettingsWriterMW` of `createProjectV2`'s pipeline persists), and
the filesystem events performed. -/
structure CreateOut where
  result : Except FxErr String
  settings : Option ProjectSettings
  writes : List FsWrite

/-- Path concatenation as `path.join(folder, appName)`. -/
def pathJoin (a b : String) : String := a ++ "/" ++ b

/-- Modelled from the spec: the default environment name (environment
naming rules live in core/environment.ts, which is not under src/). -/
def defaultEnvName : String := "dev"

/-- Modelled from the spec: the synthesized local environment name. -/
def localEnvName : String := "local"

/-- Modelled: `getLocalAppName` (appstudio utils, not under src/) derives
the local-environment display name from the app name; its exact form is
irrelevant to the claims. -/
def getLocalAppName (appName : String) : String := appName ++ "-local"

/-- Embeds `createEnvWithName` (FxCore.ts lines 1235-1259): derive the app name
(localized for the local environment), build the default config document
and persist it via `environmentManager.writeEnvConfig`, propagating a
write failure. -/
def createEnvWithName (env : CreateEnv) (targetEnvName : String)
    (ps : ProjectSettings) : Except FxErr Unit × List FsWrite :=
  let appName := if targetEnvName == localEnvName then getLocalAppName ps.appName
                 else ps.appName
  match env.writeEnvConfigResult targetEnvName with
  | .error e => (.error e, [])
  | .ok writtenPath => (.ok (), [.envConfigWrite writtenPath targetEnvName appName])

/-- Embeds `ensureBasicFolderStructure` (FxCore.ts lines 1472-1533): write a
default package.json (except on the VS platform) and a .gitignore when
they are missing; a write fault is returned as `WriteFileError`. -/
def ensureBasicFolderStructure (env : CreateEnv) (platform : Platform)
    (projectPath appName : String) : Except FxErr Unit × List FsWrite :=
  if env.basicFolderWriteOk then
    (.ok (),
     (if platform != Platform.vs && !env.packageJsonExists projectPath then
        [FsWrite.writePackageJson projectPath appName]
      else []) ++
     (if !env.gitignoreExists projectPath then [FsWrite.writeGitignore projectPath]
      else []))
  else (.error .writeFile, [])

/-- The create-from-new tail of `createProjectV2` (FxCore.ts lines
257-311): attach empty solution settings and the programming language,
set `ctx.projectSettings` (before the fallible steps, so the document
stays in the context even if a later step fails), create the default (and,
under config-unify, the local) environment, resolve the selected solution
by name, record its name in the settings, and run scaffolding, resource
template generation and the solution's optional `createEnv`. -/
def createProjectV2FromNew (env : CreateEnv) (inputs : CreateInputs)
    (ps0 : ProjectSettings) (projectPath : String) (ws : List FsWrite) :
    CreateOut :=
  let ps1 := { ps0 with solutionSettings := some { name := "", version := "1.0.0" },
                        programmingLanguage := inputs.programmingLanguage }
  match createEnvWithName env defaultEnvName ps1 with
  | (.error e, w) => { result := .error e, settings := some ps1, writes := ws ++ w }
  | (.ok _, wdef) =>
    let unifyStep := if env.configUnify then createEnvWithName env localEnvName ps1
                     else (.ok (), [])
    match unifyStep with
    | (.error e, w) =>
        { result := .error e, settings := some ps1, writes := ws ++ wdef ++ w }
    | (.ok _, wloc) =>
      let ws2 := ws ++ wdef ++ wloc
      match env.getSolutionByName (inputs.solution.getD "") with
      | none => { result := .error .loadSolution, settings := some ps1, writes := ws2 }
      | some sol =>
        let ps2 := { ps1 with solutionSettings := some { name := sol.name, version := "1.0.0" } }
        match sol.scaffoldResult with
        | .error e => { result := .error e, settings := some ps2, writes := ws2 }
        | .ok _ =>
          match sol.generateResourceTemplateResult with
          | .error e => { result := .error e, settings := some ps2, writes := ws2 }
          | .ok _ =>
            let tail := if inputs.platform == Platform.vsCode then [FsWrite.globalStateWrite] else []
            if sol.hasCreateEnv then
              match sol.createEnvResult with
              | .error e => { result := .error e, settings := some ps2, writes := ws2 }
              | .ok _ => { result := .ok projectPath, settings := some ps2, writes := ws2 ++ tail }
            else { result := .ok projectPath, settings := some ps2, writes := ws2 ++ tail }

/-- The existing-app tail of `createProjectV2` (FxCore.ts lines 213-256):
set `ctx.projectSettings` (no solution settings for an existing app),
persist the default environment config built from the existing app
configuration, call the app-studio plugin to init the manifest and add the
existing capabilities, and under config-unify create the local
environment. -/
def createProjectV2ExistingApp (env : CreateEnv) (inputs : CreateInputs)
    (ps0 : ProjectSettings) (projectPath : String) (ws : List FsWrite) :
    CreateOut :=
  match env.writeEnvConfigResult defaultEnvName with
  | .error e => { result := .error e, settings := some ps0, writes := ws }
  | .ok p =>
    let ws1 := ws ++ [FsWrite.envConfigWrite p defaultEnvName ps0.appName]
    if !env.appStudioInitOk then
      { result := .error (.delegated 1), settings := some ps0, writes := ws1 }
    else if !env.appStudioAddCapsOk then
      { result := .error (.delegated 2), settings := some ps0, writes := ws1 }
    else
      let tail := if inputs.platform == Platform.vsCode then [FsWrite.globalStateWrite] else []
      if env.configUnify then
        match createEnvWithName env localEnvName ps0 with
        | (.error e, w) => { result := .error e, settings := some ps0, writes := ws1 ++ w }
        | (.ok _, w) =>
            { result := .ok projectPath, settings := some ps0, writes := ws1 ++ w ++ tail }
      else { result := .ok projectPath, settings := some ps0, writes := ws1 ++ tail }

/-- Embeds `createProjectV2` (FxCore.ts lines 156-317): under VSCode the root
directory replaces the answered folder (a failing `ensureDir` throws
`ProjectFolderInvalidError`); the sample path delegates to
`downloadSample`; the from-scratch path requires an app name, validates it
against the project-name pattern (returning the validator's first message
as `InvalidInputError`), refuses an existing target folder with
`ProjectFolderExistError` before any write under the project path, then
creates the folder skeleton, the settings document and the environments,
and drives the selected solution. -/
def createProjectV2Run (env : CreateEnv) (inputs : CreateInputs) : CreateOut :=
  if inputs.platform == Platform.vsCode && !env.ensureRootDirOk then
    { result := .error (.projectFolderInvalid env.rootDirectory),
      settings := none, writes := [] }
  else
    let folder : Option String :=
      if inputs.platform == Platform.vsCode then some env.rootDirectory else inputs.folder
    let writes0 : List FsWrite :=
      if inputs.platform == Platform.vsCode then [.ensureRootDir env.rootDirectory] else []
    if !inputs.createFromScratch then
      match env.downloadSampleResult with
      | .error e => { result := .error e, settings := none, writes := writes0 }
      | .ok projectPath =>
          { result := .ok projectPath, settings := none,
            writes := writes0 ++
              (if inputs.platform == Platform.vsCode then [FsWrite.globalStateWrite] else []) }
    else
      match inputs.appName with
      | none => { result := .error (.invalidInput "App Name is empty"),
                  settings := none, writes := writes0 }
      | some appName =>
        match env.validate appName with
        | msg :: _ => { result := .error (.invalidInput msg),
                        settings := none, writes := writes0 }
        | [] =>
          match folder with
          | none =>
              -- path.join with an undefined folder throws; ErrorHandlerMW wraps the fault
              { result := .error (.systemError (.invalidInput "folder is undefined")),
                settings := none, writes := writes0 }
          | some fol =>
            let projectPath := pathJoin fol appName
            if env.pathExists projectPath then
              { result := .error (.projectFolderExist projectPath),
                settings := none, writes := writes0 }
            else
              let writes1 := writes0 ++
                [FsWrite.ensureProjectDir projectPath, .ensureConfigDir projectPath,
                 .ensureTemplatesAppPackageDir projectPath]
              let basic := ensureBasicFolderStructure env inputs.platform projectPath appName
              match basic.1 with
              | .error e => { result := .error e, settings := none, writes := writes1 ++ basic.2 }
              | .ok _ =>
                let ps0 : ProjectSettings :=
                  { appName := appName, projectId := inputs.projectId.getD env.freshUuid,
                    version := env.settingsVersion, isFromSample := false }
                if inputs.isCreatedFromExistingApp then
                  createProjectV2ExistingApp env inputs ps0 projectPath (writes1 ++ basic.2)
                else
                  createProjectV2FromNew env inputs ps0 projectPath (writes1 ++ basic.2)

/-- The local-environment tail of `_init` (FxCore.ts lines 1411-1419):
the local environment is always created last. -/
def initCoreLocalEnv (env : CreateEnv) (ps : ProjectSettings)
    (projectPath : String) (ws : List FsWrite) :
    Except FxErr String × Option ProjectSettings × List FsWrite :=
  match createEnvWithName env localEnvName ps with
  | (.error e, w) => (.error e, some ps, ws ++ w)
  | (.ok _, w) => (.ok projectPath, some ps, ws ++ w)

/-- Embeds `_init` (FxCore.ts lines 1332-1420), called by `createProjectV3` with
the app name and folder already present: validate the app name again
(`"invalid app-name"`), build fresh project settings carrying the app name
and set them into the context before the filesystem steps, create the
folder skeleton and basic structure, init the manifest through the
app-studio plugin, create the default environment (or, for an existing
app, persist its config and add its capabilities), then always create the
local environment. -/
def initCore (env : CreateEnv) (inputs : CreateInputs) (appName fol : String) :
    Except FxErr String × Option ProjectSettings × List FsWrite :=
  match env.validate appName with
  | _ :: _ => (.error (.invalidInput "invalid app-name"), none, [])
  | [] =>
    let projectPath := pathJoin fol appName
    let ps : ProjectSettings :=
      { appName := appName, projectId := env.freshUuid,
        version := env.settingsVersion, isFromSample := false }
    let writes1 := [FsWrite.ensureConfigDir projectPath,
                    .ensureTemplatesAppPackageDir projectPath]
    let basic := ensureBasicFolderStructure env inputs.platform projectPath appName
    match basic.1 with
    | .error e => (.error e, some ps, writes1 ++ basic.2)
    | .ok _ =>
      let writes2 := writes1 ++ basic.2
      if !env.appStudioInitOk then (.error (.delegated 1), some ps, writes2)
      else if inputs.isCreatedFromExistingApp then
        match env.writeEnvConfigResult defaultEnvName with
        | .error e => (.error e, some ps, writes2)
        | .ok p =>
          let writes3 := writes2 ++ [FsWrite.envConfigWrite p defaultEnvName ps.appName]
          if !env.appStudioAddCapsOk then (.error (.delegated 2), some ps, writes3)
          else initCoreLocalEnv env ps projectPath writes3
      else
        match createEnvWithName env defaultEnvName ps with
        | (.error e, w) => (.error e, some ps, writes2 ++ w)
        | (.ok _, w) => initCoreLocalEnv env ps projectPath (writes2 ++ w)

/-- Embeds `createProjectV3` (FxCore.ts lines 319-421): like V2 but the root
directory also replaces the folder under VS, an absent folder is refused,
the settings document is persisted directly with `fs.writeFile` after
`_init` (there is no writer middleware in this pipeline), and the selected
features are added through `addFeature` (abstracted here as the
collaborator's result, since the feature-id constants live outside src/). -/
def createProjectV3Run (env : CreateEnv) (inputs : CreateInputs) : CreateOut :=
  if (inputs.platform == Platform.vsCode || inputs.platform == Platform.vs) &&
      !env.ensureRootDirOk then
    { result := .error (.projectFolderInvalid env.rootDirectory),
      settings := none, writes := [] }
  else
    let useRoot := inputs.platform == Platform.vsCode || inputs.platform == Platform.vs
    let folder : Option String :=
      if useRoot then some env.rootDirectory else inputs.folder
    let writes0 : List FsWrite :=
      if useRoot then [.ensureRootDir env.rootDirectory] else []
    match folder with
    | none => { result := .error (.invalidInput "folder is undefined"),
                settings := none, writes := writes0 }
    | some fol =>
      if !inputs.createFromScratch then
        match env.downloadSampleResult with
        | .error e => { result := .error e, settings := none, writes := writes0 }
        | .ok p =>
            { result := .ok p, settings := none,
              writes := writes0 ++
                (if inputs.platform == Platform.vsCode then [FsWrite.globalStateWrite] else []) }
      else
        match inputs.appName with
        | none => { result := .error (.invalidInput "App Name is empty"),
                    settings := none, writes := writes0 }
        | some appName =>
          match env.validate appName with
          | msg :: _ => { result := .error (.invalidInput msg),
                          settings := none, writes := writes0 }
          | [] =>
            let projectPath := pathJoin fol appName
            if env.pathExists projectPath then
              { result := .error (.projectFolderExist projectPath),
                settings := none, writes := writes0 }
            else
              let writes1 := writes0 ++
                [FsWrite.ensureProjectDir projectPath, .ensureConfigDir projectPath]
              match initCore env inputs appName fol with
              | (.error e, psOpt, w) =>
                  { result := .error e, settings := psOpt, writes := writes1 ++ w }
              | (.ok _, psOpt, w) =>
                let ps := psOpt.getD
                  { appName := appName, projectId := env.freshUuid,
                    version := env.settingsVersion, isFromSample := false }
                let ps2 := { ps with programmingLanguage := inputs.programmingLanguage,
                                     isFromSample := false }
                let writes2 := writes1 ++ w ++ [FsWrite.settingsFileWrite projectPath ps2]
                let tail := if inputs.platform == Platform.vsCode then [FsWrite.globalStateWrite] else []
                if !inputs.isCreatedFromExistingApp then
                  match env.addFeatureResult with
                  | .error e => { result := .error e, settings := some ps2, writes := writes2 }
                  | .ok _ => { result := .ok projectPath, settings := some ps2,
                               writes := writes2 ++ tail }
                else
                  { result := .ok projectPath, settings := some ps2, writes := writes2 ++ tail }

/-- Whether a run produced no project-settings document: none left in the
hook context (so the writer middleware has nothing to persist) and no
settings file written directly. -/
def noSettingsDoc (o : CreateOut) : Bool :=
  o.settings.isNone &&
  o.writes.all (fun w => match w with | .settingsFileWrite _ _ => false | _ => true)

/-- Whether a result is the "folder exists" user error. -/
def isFolderExistErr (r : Except FxErr String) : Bool :=
  match r with
  | .error (.projectFolderExist _) => true
  | _ => false

/-- Whether an operation result is the `ObjectIsUndefinedError`
consistency error (signalling an absent expected context field). -/
def isConsistencyErr (r : Except FxErr Unit) : Bool :=
  match r with
  | .error (.objectIsUndefined _) => true
  | _ => false

/-- Concrete healthy solution plugin for the createProject witnesses. -/
def witnessSol : SolutionV2 :=
  { name := "fx-solution-azure", scaffoldResult := .ok (),
    generateResourceTemplateResult := .ok (), hasCreateEnv := true,
    createEnvResult := .ok () }

/-- Concrete healthy environment for the C6 witness: the validator accepts
exactly the name "app1" and no target folder exists. -/
def c6WitnessEnv : CreateEnv :=
  { rootDirectory := "/root-dir", ensureRootDirOk := true,
    validate := fun s => if s == "app1" then [] else ["name does not match pattern"],
    pathExists := fun _ => false,
    packageJsonExists := fun _ => false, gitignoreExists := fun _ => false,
    basicFolderWriteOk := true, freshUuid := "uuid-1",
    settingsVersion := "2.1.0", configUnify := false,
    writeEnvConfigResult := fun e => .ok ("cfg/" ++ e),
    downloadSampleResult := .ok "/sample",
    getSolutionByName := fun s => if s == "fx-solution-azure" then some witnessSol else none,
    appStudioInitOk := true, appStudioAddCapsOk := true,
    addFeatureResult := .ok () }

/-- Concrete create-from-scratch input bag for the createProject
witnesses. -/
def createWitnessInputs : CreateInputs :=
  { platform := .cli, folder := some "/w", createFromScratch := true,
    appName := some "app1", projectId := none,
    programmingLanguage := some "typescript",
    solution := some "fx-solution-azure", isCreatedFromExistingApp := false }

/-- Concrete environment for the C7 witness: identical to the C6
environment except every target folder already exists. -/
def c7WitnessEnv : CreateEnv :=
  { rootDirectory := "/root-dir", ensureRootDirOk := true,
    validate := fun s => if s == "app1" then [] else ["name does not match pattern"],
    pathExists := fun _ => true,
    packageJsonExists := fun _ => false, gitignoreExists := fun _ => false,
    basicFolderWriteOk := true, freshUuid := "uuid-1",
    settingsVersion := "2.1.0", configUnify := false,
    writeEnvConfigResult := fun e => .ok ("cfg/" ++ e),
    downloadSampleResult := .ok "/sample",
    getSolutionByName := fun s => if s == "fx-solution-azure" then some witnessSol else none,
    appStudioInitOk := true, appStudioAddCapsOk := true,
    addFeatureResult := .ok () }

/-- C1 counterexample: the claim that a dispatched pipeline uses only the
selected generation's versioned middleware is false at the concrete input
`publishApplication` with `isV3() = true`: the `@hooks` list of
`publishApplicationV3` (FxCore.ts lines 707-718) is declared with the
V2-versioned `EnvInfoLoaderMW`, `SolutionLoaderMW` and `EnvInfoWriterMW`. -/
theorem c1_claim_counterexample :
    c1ClaimAt false Op.publishApplication true = false := by decide

/-- C1 amended: the dispatcher picks exactly one implementation per flag
value, and for `createProject`, `provisionResources`, `deployArtifacts`,
`grantPermission`, `checkPermission` and `listCollaborator` the selected
pipeline's versioned middleware all match the selected generation; no
pipeline of any of the eight operations ever loads both a V2 and a V3
solution instance; `publishApplicationV3` is declared entirely with
V2-versioned middleware, and the only generation-mismatched middleware in
`executeUserTaskV3` is the V2 `EnvInfoWriterMW`. -/
theorem c1_dispatch_generation_amended : ∀ cu : Bool,
    (([Op.createProject, .provisionResources, .deployArtifacts,
       .grantPermission, .checkPermission, .listCollaborator].all fun op =>
        pipelineUniform cu (dispatch op true) .v3 &&
        pipelineUniform cu (dispatch op false) .v2) = true) ∧
    ((c1Ops.all fun op =>
        noSolutionMixing cu (dispatch op true) &&
        noSolutionMixing cu (dispatch op false)) = true) ∧
    (pipelineUniform cu Impl.publishApplicationV2 .v2 = true) ∧
    (pipelineUniform cu Impl.publishApplicationV3 .v2 = true) ∧
    (pipelineUniform cu Impl.executeUserTaskV2 .v2 = true) ∧
    ((hooksOf cu Impl.executeUserTaskV3).filter
        (fun m => !(mwMatchesGen .v3 m)) = [.EnvInfoWriterMW false]) := by
  decide

/-- C4: each of the six declared provision/deploy/publish pipelines (both
generations) is exactly ErrorHandler, ConcurrencyLock, ProjectMigrator,
ProjectSettingsLoader, EnvironmentLoader, SolutionResolver, QuestionEngine,
ContextInjector, then the writers ProjectSettingsWriter and
EnvironmentWriter, in this order. -/
theorem c4_mutating_pipeline_order : ∀ cu : Bool,
    ([Impl.provisionResourcesV2, .provisionResourcesV3,
      .deployArtifactsV2, .deployArtifactsV3,
      .publishApplicationV2, .publishApplicationV3].all fun i =>
        (hooksOf cu i).map roleOf == specMutatingPipeline) = true := by
  decide

/-- C2 counterexample: `buildArtifacts` (FxCore.ts lines 1182-1184) has no
middleware pipeline and its body throws `TaskNotSupportError(Stage.build)`,
so the promise returned to the caller rejects — the fault escapes instead
of being converted into a structured failure result. -/
theorem c2_claim_counterexample :
    runFaulty (hooksOf false Impl.buildArtifacts)
        (.rejected (FxErr.taskNotSupport "build")) =
      .rejected (FxErr.taskNotSupport "build") := by rfl

/-- C2 amended: for every implementation that is declared with a middleware
pipeline (all of them begin with the outermost `ErrorHandlerMW`), any
fault raised inside the pipeline — by a middleware or by the target
operation — is converted into a structured result, so the returned promise
resolves; only `buildArtifacts`, which has no pipeline, can reject. -/
theorem c2_no_escape_amended : ∀ (cu : Bool) (b : PromiseOutcome),
    (([Impl.createProjectV2, .createProjectV3,
       .provisionResourcesV2, .provisionResourcesV3,
       .deployArtifactsV2, .deployArtifactsV3, .localDebugV2,
       .publishApplicationV2, .publishApplicationV3,
       .executeUserTaskV2, .executeUserTaskV3,
       .grantPermissionV2, .grantPermissionV3,
       .checkPermissionV2, .checkPermissionV3,
       .listCollaboratorV2, .listCollaboratorV3].all fun i =>
        isResolved (runFaulty (hooksOf cu i) b)) = true) ∧
    ([Impl.createProjectV2, .createProjectV3,
      .provisionResourcesV2, .provisionResourcesV3,
      .deployArtifactsV2, .deployArtifactsV3, .localDebugV2,
      .publishApplicationV2, .publishApplicationV3,
      .executeUserTaskV2, .executeUserTaskV3,
      .grantPermissionV2, .grantPermissionV3,
      .checkPermissionV2, .checkPermissionV3,
      .listCollaboratorV2, .listCollaboratorV3].all fun i =>
        (hooksOf cu i).head? == some .ErrorHandlerMW) = true := by
  intro cu b
  cases cu <;> cases b <;> exact ⟨rfl, rfl⟩

/-- C3: in a provision-shaped pipeline (and in `localDebugV2`'s pipeline)
whose target operation mutates the context by `f` and then fails with `e`,
the run still emits exactly one `ProjectSettingsWriter` and one
`EnvironmentWriter` persistence event (plus, for localDebug, one
`LocalSettingsWriter` event), each persisting the context as of the
failure point `f (loaded context)`, in reverse-entry order; the result is
the failure value and the lock is released. -/
theorem c3_writers_run_on_target_failure (d : Disk) (e : FxErr)
    (f : PipeCtx → PipeCtx) (cu : Bool) :
    (runPipe d (hooksOf cu .provisionResourcesV2)
        (fun s => (.error e, { s with ctx := f s.ctx })) {} =
      (.error e,
        { ctx := f (loadedCtxV2 d), locked := false,
          writes := [.envInfoWrite (f (loadedCtxV2 d)).envInfo,
                     .projectSettingsWrite (f (loadedCtxV2 d)).projectSettings] })) ∧
    (runPipe d (hooksOf cu .localDebugV2)
        (fun s => (.error e, { s with ctx := f s.ctx })) {} =
      (.error e,
        { ctx := f (loadedCtxLocalDebug d), locked := false,
          writes := [.localSettingsWrite (f (loadedCtxLocalDebug d)).localSettings,
                     .envInfoWrite (f (loadedCtxLocalDebug d)).envInfo,
                     .projectSettingsWrite (f (loadedCtxLocalDebug d)).projectSettings] })) := by
  cases cu <;> exact ⟨rfl, rfl⟩

/-- Filtering out a value twice is the same as filtering it out once. -/
theorem filter_ne_idem (l : List String) (p : String) :
    (l.filter (fun q => q != p)).filter (fun q => q != p) =
      l.filter (fun q => q != p) := by
  rw [List.filter_filter]
  simp

/-- The released path is no longer held. -/
theorem not_mem_release (s : LockState) (p : String) :
    p ∉ (releaseLock s p).held := by
  simp [releaseLock, List.mem_filter]

/-- C5: while a mutating pipeline holds the lock for a path, acquiring it
succeeds exactly once — a second concurrent acquisition of the same path
fails fast with the lock error; release is idempotent; after release a
subsequent acquisition succeeds; a held path never affects acquisition of
a different path; and a pipeline run releases the lock even when its
target operation fails. -/
theorem c5_advisory_lock (s : LockState) (p q : String)
    (hp : p ∉ s.held) (hq : q ≠ p) :
    acquireLock s p = .ok ⟨p :: s.held⟩ ∧
    acquireLock ⟨p :: s.held⟩ p = .error .concurrentOperation ∧
    releaseLock (releaseLock ⟨p :: s.held⟩ p) p = releaseLock ⟨p :: s.held⟩ p ∧
    acquireLock (releaseLock ⟨p :: s.held⟩ p) p =
      .ok ⟨p :: (releaseLock ⟨p :: s.held⟩ p).held⟩ ∧
    (acquireLock ⟨p :: s.held⟩ q).isOk = (acquireLock s q).isOk ∧
    (runPipe ⟨0, 0, 0⟩ (hooksOf false .provisionResourcesV2)
        (fun st => (.error .userCancel, st)) {}).2.locked = false := by
  refine ⟨?_, ?_, ?_, ?_, ?_, rfl⟩
  · simp [acquireLock, hp]
  · simp [acquireLock]
  · simp [releaseLock, filter_ne_idem]
  · simp [acquireLock, not_mem_release ⟨p :: s.held⟩ p]
  · by_cases hin : q ∈ s.held <;>
      simp [acquireLock, hq, hin, Except.isOk, Except.toBool]

/-- C5 witness: a concrete instantiation — locking the empty state on one
path, contending on it, releasing it, and acquiring an unrelated path. -/
theorem c5_advisory_lock_witness :
    ("/a" ∉ (⟨[]⟩ : LockState).held ∧ "/b" ≠ "/a") ∧
    (acquireLock ⟨[]⟩ "/a" = .ok ⟨["/a"]⟩ ∧
     acquireLock ⟨["/a"]⟩ "/a" = .error .concurrentOperation ∧
     releaseLock (releaseLock ⟨["/a"]⟩ "/a") "/a" = releaseLock ⟨["/a"]⟩ "/a" ∧
     acquireLock (releaseLock ⟨["/a"]⟩ "/a") "/a" =
       .ok ⟨"/a" :: (releaseLock ⟨["/a"]⟩ "/a").held⟩ ∧
     (acquireLock ⟨["/a"]⟩ "/b").isOk = (acquireLock ⟨[]⟩ "/b").isOk ∧
     (runPipe ⟨0, 0, 0⟩ (hooksOf false .provisionResourcesV2)
         (fun st => (.error .userCancel, st)) {}).2.locked = false) :=
  ⟨⟨by decide, by decide⟩,
   c5_advisory_lock ⟨[]⟩ "/a" "/b" (by decide) (by decide)⟩

/-- C9 counterexample: the claim that a missing expected context field
always surfaces as a consistency error is false at the concrete input
`provisionResourcesV3` with an empty hook context: the body returns the
success value `ok(Void)` (FxCore.ts line 498) even though the resolved
solution, shared context and environment info are all absent — the
delegate error passed here is never even consulted. -/
theorem c9_claim_counterexample :
    provisionResourcesV3Body (some {}) (.error (.delegated 7)) = .ok () := by rfl

/-- C9 amended: with the whole hook context absent, or with any expected
context field absent — the resolved solution instance, the shared
execution context, or the active environment's info — the V2
provision/deploy/publish bodies return the `ObjectIsUndefinedError`
consistency error (naming the first missing field where the body computes
one, as the exact-message cases show), while the V3 bodies silently
return the success value `ok(Void)`; `deployArtifactsV2` additionally
returns the consistency error when the loaded project settings themselves
are absent. -/
theorem c9_missing_field_amended (c : HookCtx) (ps : ProjectSettings)
    (hasDeploy : Bool) (call : Except FxErr Unit) :
    (provisionResourcesV2Body none call =
       .error (.objectIsUndefined "Provision input stuff") ∧
     deployArtifactsV2Body none hasDeploy call =
       .error (.objectIsUndefined "deploy input stuff") ∧
     publishApplicationV2Body none call =
       .error (.objectIsUndefined "publish input stuff: ctx") ∧
     provisionResourcesV3Body none call = .ok () ∧
     deployArtifactsV3Body none call = .ok () ∧
     publishApplicationV3Body none call = .ok ()) ∧
    ((c.solutionV2.isNone || c.contextV2.isNone || c.envInfoV2.isNone) = true →
      isConsistencyErr (provisionResourcesV2Body (some c) call) = true ∧
      isConsistencyErr (publishApplicationV2Body (some c) call) = true) ∧
    (c.projectSettings = none →
      isConsistencyErr (deployArtifactsV2Body (some c) hasDeploy call) = true) ∧
    ((c.solutionV2.isNone || c.contextV2.isNone || c.envInfoV2.isNone) = true →
      c.projectSettings = some ps → isPureExistingApp ps = false →
      isConsistencyErr (deployArtifactsV2Body (some c) hasDeploy call) = true) ∧
    (c.solutionV2 = none →
      publishApplicationV2Body (some c) call =
        .error (.objectIsUndefined "publish input stuff: ctx.solutionV2")) ∧
    (c.solutionV2 = some () → c.contextV2 = some () → c.envInfoV2 = none →
      publishApplicationV2Body (some c) call =
        .error (.objectIsUndefined "publish input stuff: ctx.envInfoV2") ∧
      (c.projectSettings = some ps → isPureExistingApp ps = false →
        deployArtifactsV2Body (some c) hasDeploy call =
          .error (.objectIsUndefined "Deploy input stuff: ctx.envInfoV2"))) ∧
    ((c.solutionV3.isNone || c.contextV2.isNone || c.envInfoV3.isNone) = true →
      provisionResourcesV3Body (some c) call = .ok () ∧
      deployArtifactsV3Body (some c) call = .ok () ∧
      publishApplicationV3Body (some c) call = .ok ()) := by
  obtain ⟨cps, cs2, cs3, cc2, ce2, ce3⟩ := c
  refine ⟨⟨rfl, rfl, rfl, rfl, rfl, rfl⟩, ?_, ?_, ?_, ?_, ?_, ?_⟩
  · intro hmiss
    cases cs2 <;> cases cc2 <;> cases ce2 <;>
      simp_all [provisionResourcesV2Body, publishApplicationV2Body,
        isConsistencyErr]
  · intro h
    have h2 : cps = none := h
    subst h2
    rfl
  · intro hmiss hps hpure
    have h2 : cps = some ps := hps
    subst h2
    cases cs2 <;> cases cc2 <;> cases ce2 <;>
      simp_all [deployArtifactsV2Body, isConsistencyErr]
  · intro h
    have h2 : cs2 = none := h
    subst h2
    rfl
  · intro h1 h2 h3
    have a1 : cs2 = some () := h1
    have a2 : cc2 = some () := h2
    have a3 : ce2 = none := h3
    subst a1 a2 a3
    refine ⟨rfl, ?_⟩
    intro hps hpure
    have h4 : cps = some ps := hps
    subst h4
    simp [deployArtifactsV2Body, hpure, undefinedName]
  · intro hmiss
    cases cs3 <;> cases cc2 <;> cases ce3 <;>
      simp_all [provisionResourcesV3Body, deployArtifactsV3Body,
        publishApplicationV3Body]

/-- C9 witness: the amended claim instantiated at a concrete hook context
that carries loaded project settings but no resolved solution, no shared
context and no environment info of either generation. -/
theorem c9_missing_field_witness :
    ((c9WitnessCtx.solutionV2.isNone || c9WitnessCtx.contextV2.isNone ||
        c9WitnessCtx.envInfoV2.isNone) = true ∧
     c9WitnessCtx.projectSettings = some c9WitnessSettings ∧
     isPureExistingApp c9WitnessSettings = false ∧
     c9WitnessCtx.solutionV2 = none ∧
     (c9WitnessCtx.solutionV3.isNone || c9WitnessCtx.contextV2.isNone ||
        c9WitnessCtx.envInfoV3.isNone) = true) ∧
    isConsistencyErr (provisionResourcesV2Body (some c9WitnessCtx) (.ok ())) = true ∧
    isConsistencyErr (publishApplicationV2Body (some c9WitnessCtx) (.ok ())) = true ∧
    isConsistencyErr (deployArtifactsV2Body (some c9WitnessCtx) true (.ok ())) = true ∧
    publishApplicationV2Body (some c9WitnessCtx) (.ok ()) =
      .error (.objectIsUndefined "publish input stuff: ctx.solutionV2") ∧
    provisionResourcesV3Body (some c9WitnessCtx) (.ok ()) = .ok () ∧
    deployArtifactsV3Body (some c9WitnessCtx) (.ok ()) = .ok () ∧
    publishApplicationV3Body (some c9WitnessCtx) (.ok ()) = .ok () :=
  ⟨⟨rfl, rfl, rfl, rfl, rfl⟩,
   ((c9_missing_field_amended c9WitnessCtx c9WitnessSettings true (.ok ())).2.1 rfl).1,
   ((c9_missing_field_amended c9WitnessCtx c9WitnessSettings true (.ok ())).2.1 rfl).2,
   (c9_missing_field_amended c9WitnessCtx c9WitnessSettings true (.ok ())).2.2.2.1
     rfl rfl rfl,
   (c9_missing_field_amended c9WitnessCtx c9WitnessSettings true (.ok ())).2.2.2.2.1 rfl,
   ((c9_missing_field_amended c9WitnessCtx c9WitnessSettings true (.ok ())).2.2.2.2.2.2 rfl).1,
   ((c9_missing_field_amended c9WitnessCtx c9WitnessSettings true (.ok ())).2.2.2.2.2.2 rfl).2.1,
   ((c9_missing_field_amended c9WitnessCtx c9WitnessSettings true (.ok ())).2.2.2.2.2.2 rfl).2.2⟩

/-- C10: the partial-success outcome is handled as a case of its own —
its output is stored into the context's local settings while the carried
error is returned — and, provided the partial output differs from the
prior local settings, the three outcomes remain pairwise distinguishable
in the observable pair (returned result, stored local settings); the
`localDebugV2` pipeline declares `LocalSettingsWriterMW` after
`ContextInjectorMW`, and a pipeline run whose target stores local
settings `o` and fails persists `some o` through that writer exactly
once. -/
theorem c10_local_debug_part_success (prior o : Nat) (e e2 : FxErr)
    (d : Disk) (cu : Bool) (hdiff : o ≠ prior) :
    localDebugHandleResult prior (.partSuccess o e) = (.error e, some o) ∧
    localDebugHandleResult prior (.success o) = (.ok (), some o) ∧
    localDebugHandleResult prior (.failure e) = (.error e, some prior) ∧
    localDebugHandleResult prior (.partSuccess o e) ≠
      localDebugHandleResult prior (.failure e2) ∧
    (localDebugHandleResult prior (.partSuccess o e)).1 ≠
      (localDebugHandleResult prior (.success o)).1 ∧
    ((hooksOf cu .localDebugV2).drop
        ((hooksOf cu .localDebugV2).indexOf .ContextInjectorMW)).contains
        .LocalSettingsWriterMW = true ∧
    ((runPipe d (hooksOf cu .localDebugV2)
        (fun s => (.error e, { s with ctx := { s.ctx with localSettings := some o } })) {}).2.writes.count
      (.localSettingsWrite (some o))) = 1 := by
  refine ⟨rfl, rfl, rfl, ?_, by simp [localDebugHandleResult], ?_, ?_⟩
  · simp only [localDebugHandleResult, ne_eq, Prod.mk.injEq, not_and]
    intro _
    simp [hdiff]
  · cases cu <;> rfl
  · cases cu <;> simp [runPipe, mwSem, hooksOf, List.count_cons]

/-- C10 witness: the partial-success handling instantiated at concrete
values (prior local settings 0, partial output 1). -/
theorem c10_local_debug_part_success_witness :
    (1 ≠ 0) ∧
    (localDebugHandleResult 0 (.partSuccess 1 .userCancel) =
        (.error .userCancel, some 1) ∧
     localDebugHandleResult 0 (.success 1) = (.ok (), some 1) ∧
     localDebugHandleResult 0 (.failure .userCancel) =
        (.error .userCancel, some 0) ∧
     localDebugHandleResult 0 (.partSuccess 1 .userCancel) ≠
        localDebugHandleResult 0 (.failure .userCancel) ∧
     (localDebugHandleResult 0 (.partSuccess 1 .userCancel)).1 ≠
        (localDebugHandleResult 0 (.success 1)).1 ∧
     ((hooksOf false .localDebugV2).drop
         ((hooksOf false .localDebugV2).indexOf .ContextInjectorMW)).contains
         .LocalSettingsWriterMW = true ∧
     ((runPipe ⟨0, 0, 0⟩ (hooksOf false .localDebugV2)
         (fun s => (.error .userCancel,
            { s with ctx := { s.ctx with localSettings := some 1 } })) {}).2.writes.count
       (.localSettingsWrite (some 1))) = 1) :=
  ⟨by decide,
   c10_local_debug_part_success 0 1 .userCancel .userCancel ⟨0, 0, 0⟩ false
     (by decide)⟩

/-- C8: when the source environment's config file holds `bytes`,
`createEnvCopy` succeeds and the resulting filesystem carries exactly the
pointwise update of the target environment's config file with those bytes
(byte-for-byte); the target environment's state file, the source
environment's files, and any other file `f` distinct from the target
config are unchanged. -/
theorem c8_env_copy_only_config (fs : EnvFs) (tgt src bytes : String)
    (f : EnvFile)
    (hsrc : fs (.config src) = some bytes) (hf : f ≠ .config tgt)
    (hst : tgt ≠ src) :
    createEnvCopy fs tgt src = .ok (writeEnvFile fs (.config tgt) bytes) ∧
    writeEnvFile fs (.config tgt) bytes (.config tgt) = some bytes ∧
    writeEnvFile fs (.config tgt) bytes (.state tgt) = fs (.state tgt) ∧
    writeEnvFile fs (.config tgt) bytes (.config src) = fs (.config src) ∧
    writeEnvFile fs (.config tgt) bytes (.state src) = fs (.state src) ∧
    writeEnvFile fs (.config tgt) bytes f = fs f := by
  refine ⟨?_, ?_, ?_, ?_, ?_, ?_⟩
  · simp [createEnvCopy, hsrc]
  · simp [writeEnvFile]
  · simp [writeEnvFile]
  · simp only [writeEnvFile, EnvFile.config.injEq]
    rw [if_neg]
    exact fun h => hst (Eq.symm h)
  · simp [writeEnvFile]
  · simp [writeEnvFile, hf]

/-- C8 witness: copying the "dev" environment to "prod" duplicates only
the config file. -/
theorem c8_env_copy_only_config_witness :
    (c8WitnessFs (.config "dev") = some "cfg-bytes" ∧
     EnvFile.state "prod" ≠ EnvFile.config "prod" ∧
     "prod" ≠ "dev") ∧
    (createEnvCopy c8WitnessFs "prod" "dev" =
        .ok (writeEnvFile c8WitnessFs (.config "prod") "cfg-bytes") ∧
     writeEnvFile c8WitnessFs (.config "prod") "cfg-bytes" (.config "prod") =
        some "cfg-bytes" ∧
     writeEnvFile c8WitnessFs (.config "prod") "cfg-bytes" (.state "prod") =
        c8WitnessFs (.state "prod") ∧
     writeEnvFile c8WitnessFs (.config "prod") "cfg-bytes" (.config "dev") =
        c8WitnessFs (.config "dev") ∧
     writeEnvFile c8WitnessFs (.config "prod") "cfg-bytes" (.state "dev") =
        c8WitnessFs (.state "dev") ∧
     writeEnvFile c8WitnessFs (.config "prod") "cfg-bytes" (.state "prod") =
        c8WitnessFs (.state "prod")) :=
  ⟨⟨by decide, by decide, by decide⟩,
   c8_env_copy_only_config c8WitnessFs "prod" "dev" "cfg-bytes"
     (.state "prod") (by decide) (by decide) (by decide)⟩

/-- C6: with the environment and collaborators healthy (root folder
creatable, target folder absent, environment writes and solution calls
succeeding), `createProject` on the create-from-scratch path succeeds in
both generations and the produced settings document carries exactly the
requested application name, whenever the name passes the project-name
pattern validator; when the validator rejects the name, both generations
fail with the user-input `InvalidInputError` carrying the validator's
first message, and no settings document is produced. -/
theorem c6_create_project_app_name (env : CreateEnv) (inputs : CreateInputs)
    (n fol dp lp : String) (sol : SolutionV2)
    (hscratch : inputs.createFromScratch = true)
    (hname : inputs.appName = some n)
    (hfol : inputs.folder = some fol)
    (hroot : env.ensureRootDirOk = true)
    (hbasic : env.basicFolderWriteOk = true)
    (hexisting : inputs.isCreatedFromExistingApp = false)
    (hpe : ∀ p, env.pathExists p = false)
    (hwd : env.writeEnvConfigResult defaultEnvName = .ok dp)
    (hwl : env.writeEnvConfigResult localEnvName = .ok lp)
    (hsol : env.getSolutionByName (inputs.solution.getD "") = some sol)
    (hscaf : sol.scaffoldResult = .ok ())
    (hgen : sol.generateResourceTemplateResult = .ok ())
    (hce : sol.createEnvResult = .ok ())
    (hinit : env.appStudioInitOk = true)
    (haf : env.addFeatureResult = .ok ()) :
    (env.validate n = [] →
      (createProjectV2Run env inputs).result.isOk = true ∧
      (createProjectV2Run env inputs).settings.map ProjectSettings.appName = some n ∧
      (createProjectV3Run env inputs).result.isOk = true ∧
      (createProjectV3Run env inputs).settings.map ProjectSettings.appName = some n ∧
      (createProjectV3Run env inputs).writes.any
        (fun w => match w with
          | .settingsFileWrite _ ps => ps.appName == n
          | _ => false) = true) ∧
    (env.validate n ≠ [] →
      (createProjectV2Run env inputs).result =
        .error (.invalidInput ((env.validate n).headD "")) ∧
      noSettingsDoc (createProjectV2Run env inputs) = true ∧
      (createProjectV3Run env inputs).result =
        .error (.invalidInput ((env.validate n).headD "")) ∧
      noSettingsDoc (createProjectV3Run env inputs) = true) := by
  obtain ⟨plat, ifold, iscr, inam, ipid, ilang, isol, iex⟩ := inputs
  have h1 : iscr = true := hscratch
  have h2 : inam = some n := hname
  have h3 : ifold = some fol := hfol
  have h4 : iex = false := hexisting
  subst h1 h2 h3 h4
  obtain ⟨sname, sscaf, sgen, shce, scer⟩ := sol
  have h5 : sscaf = .ok () := hscaf
  have h6 : sgen = .ok () := hgen
  have h7 : scer = .ok () := hce
  subst h5 h6 h7
  constructor
  · intro hv
    cases plat <;> cases hcu : env.configUnify <;> cases shce <;>
      simp [createProjectV2Run, createProjectV3Run, createProjectV2FromNew,
        initCore, initCoreLocalEnv, createEnvWithName, ensureBasicFolderStructure,
        pathJoin, hroot, hbasic, hpe, hv, hwd, hwl, hsol, hinit, haf, hcu,
        Except.isOk, Except.toBool]
  · intro hv
    cases hvv : env.validate n with
    | nil => exact absurd hvv hv
    | cons m ms =>
        cases plat <;>
          simp [createProjectV2Run, createProjectV3Run, noSettingsDoc,
            hroot, hvv]

/-- C7: in both generations, when the target project directory already
exists on disk, the create-from-scratch path of `createProject` fails with
the `ProjectFolderExistError` user error, leaves no settings document, and
performs no write under the target project path (the only possible prior
effect is creating the per-user root folder, which lies outside the
project path). -/
theorem c7_folder_exists_no_partial_writes (env : CreateEnv)
    (inputs : CreateInputs) (n fol : String)
    (hscratch : inputs.createFromScratch = true)
    (hname : inputs.appName = some n)
    (hfol : inputs.folder = some fol)
    (hroot : env.ensureRootDirOk = true)
    (hv : env.validate n = [])
    (hpe : ∀ p, env.pathExists p = true) :
    isFolderExistErr (createProjectV2Run env inputs).result = true ∧
    ((createProjectV2Run env inputs).writes.all
      (fun w => ! w.underProject)) = true ∧
    (createProjectV2Run env inputs).settings = none ∧
    isFolderExistErr (createProjectV3Run env inputs).result = true ∧
    ((createProjectV3Run env inputs).writes.all
      (fun w => ! w.underProject)) = true ∧
    (createProjectV3Run env inputs).settings = none := by
  obtain ⟨plat, ifold, iscr, inam, ipid, ilang, isol, iex⟩ := inputs
  have h1 : iscr = true := hscratch
  have h2 : inam = some n := hname
  have h3 : ifold = some fol := hfol
  subst h1 h2 h3
  cases plat <;>
    simp [createProjectV2Run, createProjectV3Run, isFolderExistErr,
      FsWrite.underProject, pathJoin, hroot, hv, hpe]

/-- C6 witness: the name-validation claim instantiated at the concrete
healthy environment and input bag. -/
theorem c6_create_project_app_name_witness :
    (createWitnessInputs.createFromScratch = true ∧
     createWitnessInputs.appName = some "app1" ∧
     c6WitnessEnv.pathExists (pathJoin "/w" "app1") = false ∧
     c6WitnessEnv.validate "app1" = []) ∧
    ((c6WitnessEnv.validate "app1" = [] →
      (createProjectV2Run c6WitnessEnv createWitnessInputs).result.isOk = true ∧
      (createProjectV2Run c6WitnessEnv createWitnessInputs).settings.map
        ProjectSettings.appName = some "app1" ∧
      (createProjectV3Run c6WitnessEnv createWitnessInputs).result.isOk = true ∧
      (createProjectV3Run c6WitnessEnv createWitnessInputs).settings.map
        ProjectSettings.appName = some "app1" ∧
      (createProjectV3Run c6WitnessEnv createWitnessInputs).writes.any
        (fun w => match w with
          | .settingsFileWrite _ ps => ps.appName == "app1"
          | _ => false) = true) ∧
     (c6WitnessEnv.validate "app1" ≠ [] →
      (createProjectV2Run c6WitnessEnv createWitnessInputs).result =
        .error (.invalidInput ((c6WitnessEnv.validate "app1").headD "")) ∧
      noSettingsDoc (createProjectV2Run c6WitnessEnv createWitnessInputs) = true ∧
      (createProjectV3Run c6WitnessEnv createWitnessInputs).result =
        .error (.invalidInput ((c6WitnessEnv.validate "app1").headD "")) ∧
      noSettingsDoc (createProjectV3Run c6WitnessEnv createWitnessInputs) = true)) :=
  ⟨⟨rfl, rfl, rfl, rfl⟩,
   c6_create_project_app_name c6WitnessEnv createWitnessInputs
     "app1" "/w" "cfg/dev" "cfg/local" witnessSol
     rfl rfl rfl rfl rfl rfl (fun _ => rfl) rfl rfl rfl rfl rfl rfl rfl rfl⟩

/-- C7 witness: the folder-exists claim instantiated at a concrete input
whose target directory exists. -/
theorem c7_folder_exists_no_partial_writes_witness :
    (createWitnessInputs.createFromScratch = true ∧
     c7WitnessEnv.validate "app1" = [] ∧
     c7WitnessEnv.pathExists (pathJoin "/w" "app1") = true) ∧
    (isFolderExistErr (createProjectV2Run c7WitnessEnv createWitnessInputs).result = true ∧
     ((createProjectV2Run c7WitnessEnv createWitnessInputs).writes.all
       (fun w => ! w.underProject)) = true ∧
     (createProjectV2Run c7WitnessEnv createWitnessInputs).settings = none ∧
     isFolderExistErr (createProjectV3Run c7WitnessEnv createWitnessInputs).result = true ∧
     ((createProjectV3Run c7WitnessEnv createWitnessInputs).writes.all
       (fun w => ! w.underProject)) = true ∧
     (createProjectV3Run c7WitnessEnv createWitnessInputs).settings = none) :=
  ⟨⟨rfl, rfl, rfl⟩,
   c7_folder_exists_no_partial_writes c7WitnessEnv createWitnessInputs
     "app1" "/w" rfl rfl rfl rfl rfl (fun _ => rfl)⟩

end TeamsFx

